import Mathlib

/-!
Shallow embedding of the order-placement and vendor-state subsystem
(`src/src/order/order.service.ts`, vendor service and controller in
`src/unnamed/part_000` / `part_001`) of the satisfy-tech repository.

External collaborators (Customer Directory, Vendor Directory, Menu
Catalog) are modelled as lookup functions passed explicitly; the Order
Repository is a list of `Order` records threaded through the operations.
JavaScript `NotFoundException` / `BadRequestException` become the
`ServiceError` constructors `notFound` / `badRequest`; a thrown exception
becomes an `Except.error` result paired with the unchanged store.
-/

namespace SatisfyTech

/-- A menu item as read from the Menu Catalog (`menuService.findOne`):
`price`, `isEnabled`, `name` (spec section 3, MenuItem). -/
structure MenuItem where
  name : String
  price : Int
  isEnabled : Bool
deriving Repr, DecidableEq

/-- Modelled from the spec: the Customer Directory's customer record; only
`fullName` is consumed by the Order Creation Workflow (snapshotted into
`customerName`). The customer service source is not in `src/`. -/
structure Customer where
  fullName : String
deriving Repr, DecidableEq

/-- One working-hours entry of a vendor
(`{day, openingTime, closingTime, isActive}`, part_000). -/
structure WorkingHoursEntry where
  day : String
  openingTime : String
  closingTime : String
  isActive : Bool
deriving Repr, DecidableEq

/-- Vendor record, restricted to the fields this core reads and writes. -/
structure Vendor where
  isStoreOpen : Bool
  workingHours : List WorkingHoursEntry
deriving Repr, DecidableEq

/-- One `{menuItemId, quantity}` pair of a create-order request. -/
structure OrderItem where
  menuItemId : String
  quantity : Int
deriving Repr, DecidableEq

/-- Order status enumeration; only the initial value `pending`
(`OrderStatus.PENDING`) is in scope. -/
inductive OrderStatus where
  | pending
deriving Repr, DecidableEq

/-- A persisted order record (`order.schema`), with the fields the order
service writes and queries. `createdAt` is modelled as an integer
timestamp. -/
structure Order where
  orderId : String
  customerId : String
  vendorId : String
  customerName : String
  phoneNumber : String
  items : List OrderItem
  totalAmount : Int
  status : OrderStatus
  isDeleted : Bool
  createdAt : Int
deriving Repr, DecidableEq

/-- `NotFoundException` / `BadRequestException` with their messages. -/
inductive ServiceError where
  | notFound (msg : String)
  | badRequest (msg : String)
deriving Repr, DecidableEq

/-- The caller-supplied part of `CreateOrderDto`. -/
structure CreateOrderDto where
  vendorId : String
  phoneNumber : String
  items : List OrderItem
deriving Repr, DecidableEq

/-- The item-validation loop of `OrderService.create`
(order.service.ts lines 38-50): walk the submitted items in order with a
running total; the first unresolved item raises `NotFoundException`
naming its id, the first disabled item raises `BadRequestException`
naming its display name; otherwise `price * quantity` is accumulated. -/
def computeTotal (menuItems : String → Option MenuItem) :
    Int → List OrderItem → Except ServiceError Int
  | acc, [] => .ok acc
  | acc, item :: rest =>
    match menuItems item.menuItemId with
    | none => .error (.notFound ("Menu item " ++ item.menuItemId ++ " not found"))
    | some menuItem =>
      if !menuItem.isEnabled then
        .error (.badRequest ("Menu item " ++ menuItem.name ++ " is not available"))
      else
        computeTotal menuItems (acc + menuItem.price * item.quantity) rest

/-- `OrderService.create` (order.service.ts lines 26-76).
`customers`, `vendors`, `menuItems` embed `customerService.findById`,
`vendorService.findById` and `menuService.findOne`; `genId` stands for the
12-character nanoid draw, `now` for the persistence-time timestamp, `db`
for the order collection. The result pairs the returned value (or thrown
error) with the order collection after the call: `order.save()` is the
single write and runs only after every check has passed.
The customer branch is modelled from the spec: `findById(id) → Customer |
fails NotFound` (Customer Directory contract, spec section 6); the
customer service source is not in `src/`. -/
def create (customers : String → Option Customer)
    (vendors : String → Option Vendor) (menuItems : String → Option MenuItem)
    (userId : String) (dto : CreateOrderDto) (genId : String) (now : Int)
    (db : List Order) : Except ServiceError Order × List Order :=
  match customers userId with
  | none => (.error (.notFound "Customer not found"), db)
  | some customer =>
    match vendors dto.vendorId with
    | none => (.error (.notFound "Vendor not found"), db)
    | some vendor =>
      if !vendor.isStoreOpen then
        (.error (.badRequest "Vendor store is currently closed"), db)
      else
        match computeTotal menuItems 0 dto.items with
        | .error e => (.error e, db)
        | .ok totalAmount =>
          let order : Order :=
            { orderId := "ST-" ++ genId
              customerId := userId
              vendorId := dto.vendorId
              customerName := customer.fullName
              phoneNumber := dto.phoneNumber
              items := dto.items
              totalAmount := totalAmount
              status := OrderStatus.pending
              isDeleted := false
              createdAt := now }
          (.ok order, db ++ [order])

/-- An item resolves in the catalog and is enabled (the condition under
which the validation loop accepts it). -/
def itemOk (menuItems : String → Option MenuItem) (it : OrderItem) : Bool :=
  match menuItems it.menuItemId with
  | some menuItem => menuItem.isEnabled
  | none => false

/-- The spec's characterisation of `totalAmount`: the sum over the
submitted items of `menuItem.price * item.quantity`, prices as read at
order time (unresolved ids contribute nothing; the claims only use this
on lists whose items all resolve). -/
def specTotal (menuItems : String → Option MenuItem) (items : List OrderItem) : Int :=
  (items.map (fun it =>
    match menuItems it.menuItemId with
    | some menuItem => menuItem.price * it.quantity
    | none => 0)).sum

theorem computeTotal_ok (menuItems : String → Option MenuItem)
    (items : List OrderItem) (h : ∀ it ∈ items, itemOk menuItems it = true)
    (acc : Int) :
    computeTotal menuItems acc items = .ok (acc + specTotal menuItems items) := by
  induction items generalizing acc with
  | nil => simp [computeTotal, specTotal]
  | cons it rest ih =>
    have hit : itemOk menuItems it = true := h it (List.mem_cons_self it rest)
    have hrest : ∀ x ∈ rest, itemOk menuItems x = true :=
      fun x hx => h x (List.mem_cons_of_mem it hx)
    cases hmi : menuItems it.menuItemId with
    | none => simp [itemOk, hmi] at hit
    | some menuItem =>
      have hen : menuItem.isEnabled = true := by simpa [itemOk, hmi] using hit
      simp only [computeTotal, hmi, hen, Bool.not_true, Bool.false_eq_true, if_false]
      rw [ih hrest]
      simp [specTotal, hmi]
      ring

/-! ## Vendor order query engine -/

/-- JavaScript `x || d` on a numeric input: `none` models a non-numeric
value (`Number(x)` is `NaN`), and `0` is falsy, so both fall back to the
default. -/
def jsOr (x : Option Int) (d : Int) : Int :=
  match x with
  | none => d
  | some v => if v = 0 then d else v

/-- `Math.max(1, Number(page) || 1)` (order.service.ts lines 87, 141). -/
def parsedPage (page : Option Int) : Int :=
  max 1 (jsOr page 1)

/-- `Math.min(Math.max(1, Number(limit) || 10), 100)`
(order.service.ts lines 88, 142). -/
def parsedLimit (limit : Option Int) : Int :=
  min (max 1 (jsOr limit 10)) 100

/-- `startsWith needle hay` decides whether `needle` is an initial
segment of `hay`. -/
def startsWith : List Char → List Char → Bool
  | [], _ => true
  | _ :: _, [] => false
  | a :: as, b :: bs => a == b && startsWith as bs

/-- `containsSub needle hay` decides whether `needle` occurs as a
contiguous run inside `hay`. -/
def containsSub (needle : List Char) : List Char → Bool
  | [] => startsWith needle []
  | c :: cs => startsWith needle (c :: cs) || containsSub needle cs

/-- JavaScript `String.prototype.trim`: strip leading and trailing
whitespace (modelled character-wise for executability). -/
def strTrim (s : String) : String :=
  ⟨((s.data.dropWhile Char.isWhitespace).reverse.dropWhile Char.isWhitespace).reverse⟩

/-- JavaScript `String.prototype.toLowerCase` (modelled character-wise
for executability). -/
def strToLower (s : String) : String :=
  ⟨s.data.map Char.toLower⟩

/-- Modelled from the spec: the external repository's
`{ $regex: term, $options: 'i' }` field test, described by the spec as a
case-insensitive substring match; the regex engine itself is outside
this repository. -/
def ciContains (term field : String) : Bool :=
  containsSub (strToLower term).data (strToLower field).data

/-- The `createdAt` clause of `findAllVendorOrders`
(order.service.ts lines 98-103): applied only when both bounds are
supplied, inclusive at both ends. -/
def matchesDateRange (startDate endDate : Option Int) (o : Order) : Bool :=
  match startDate, endDate with
  | some s, some e => decide (s ≤ o.createdAt) && decide (o.createdAt ≤ e)
  | _, _ => true

/-- The `$or` search clause (order.service.ts lines 106-112, 160-166):
`search?.trim()` must be truthy (present with a non-whitespace
character), and the trimmed term is matched case-insensitively against
`customerName`, `phoneNumber` and `orderId`. -/
def matchesSearch (search : Option String) (o : Order) : Bool :=
  match search with
  | none => true
  | some s =>
    if strTrim s = "" then true
    else ciContains (strTrim s) o.customerName ||
      ciContains (strTrim s) o.phoneNumber || ciContains (strTrim s) o.orderId

/-- The full filter predicate built by both vendor order queries: vendor
ownership, `isDeleted: { $ne: true }`, optional date range, optional
search. -/
def orderMatches (vendorId : String) (startDate endDate : Option Int)
    (search : Option String) (o : Order) : Bool :=
  o.vendorId == vendorId && !o.isDeleted && matchesDateRange startDate endDate o &&
    matchesSearch search o

/-- Insertion step for sorting by `createdAt` descending
(`sort({ createdAt: -1 })`). -/
def insertByCreatedAtDesc (o : Order) : List Order → List Order
  | [] => [o]
  | x :: xs =>
    if o.createdAt ≥ x.createdAt then o :: x :: xs
    else x :: insertByCreatedAtDesc o xs

/-- Sort a list of orders by `createdAt` descending. -/
def sortByCreatedAtDesc : List Order → List Order
  | [] => []
  | x :: xs => insertByCreatedAtDesc x (sortByCreatedAtDesc xs)

/-- The response shape of both vendor order queries. -/
structure QueryResult where
  orders : List Order
  total : Nat
  page : Int
  limit : Int
  totalPages : Int
deriving Repr, DecidableEq

/-- The query pipeline both retrieval modes share (order.service.ts
lines 86-132 and 141-186 are textual duplicates of this shape): coerce
`page` and `limit`, build the filter, read the matching page
(`sort`/`skip`/`limit`) and the matching count against the same filter,
and assemble the response with `totalPages = Math.ceil(total / limit)`. -/
def vendorOrdersQuery (db : List Order) (vendorId : String)
    (page limit : Option Int) (startDate endDate : Option Int)
    (search : Option String) : QueryResult :=
  { orders := ((sortByCreatedAtDesc
        (db.filter (orderMatches vendorId startDate endDate search))).drop
        ((parsedPage page - 1) * parsedLimit limit).toNat).take
        (parsedLimit limit).toNat
    total := (db.filter (orderMatches vendorId startDate endDate search)).length
    page := parsedPage page
    limit := parsedLimit limit
    totalPages := Int.ceil
      (((db.filter (orderMatches vendorId startDate endDate search)).length : ℚ) /
        (parsedLimit limit : ℚ)) }

/-- `OrderService.findAllVendorOrders` (order.service.ts lines 78-133):
the "all orders" mode, with its optional caller-supplied date range. -/
def findAllVendorOrders (db : List Order) (vendorId : String)
    (page limit : Option Int) (startDate endDate : Option Int)
    (search : Option String) : QueryResult :=
  vendorOrdersQuery db vendorId page limit startDate endDate search

/-- `OrderService.getTodaysVendorOrders` (order.service.ts lines
135-186): the "today" mode; `todayStart`/`todayEnd` stand for the local
midnight and `23:59:59.999` instants computed at the call, and the
range is always applied. -/
def getTodaysVendorOrders (db : List Order) (vendorId : String)
    (page limit : Option Int) (search : Option String)
    (todayStart todayEnd : Int) : QueryResult :=
  vendorOrdersQuery db vendorId page limit (some todayStart) (some todayEnd) search

/-! ## Vendor operating-state manager -/

/-- The vendor collection: id-to-record pairs; `findById` returns the
first record with the given id. -/
def lookupVendor (store : List (String × Vendor)) (id : String) : Option Vendor :=
  (store.find? (fun p => p.1 == id)).map (fun p => p.2)

/-- Persist an updated vendor document under its id. -/
def saveVendor (store : List (String × Vendor)) (id : String) (v : Vendor) :
    List (String × Vendor) :=
  store.map (fun p => if p.1 == id then (p.1, v) else p)

/-- `VendorService.openStore` (part_000 lines 14-24):
`findByIdAndUpdate(vendorId, { isStoreOpen: true }, { new: true })`;
`NotFoundException` when the id does not resolve. -/
def openStore (store : List (String × Vendor)) (vendorId : String) :
    Except ServiceError Vendor × List (String × Vendor) :=
  match lookupVendor store vendorId with
  | none => (.error (.notFound "Vendor not found"), store)
  | some v =>
    let v' := { v with isStoreOpen := true }
    (.ok v', saveVendor store vendorId v')

/-- `VendorService.closeStore` (part_000 lines 26-36). -/
def closeStore (store : List (String × Vendor)) (vendorId : String) :
    Except ServiceError Vendor × List (String × Vendor) :=
  match lookupVendor store vendorId with
  | none => (.error (.notFound "Vendor not found"), store)
  | some v =>
    let v' := { v with isStoreOpen := false }
    (.ok v', saveVendor store vendorId v')

/-- The body of `UpdateWorkingHoursDto`: `day` plus three optional
fields. -/
structure WorkingHoursUpdate where
  day : String
  openingTime : Option String
  closingTime : Option String
  isActive : Option Bool
deriving Repr, DecidableEq

/-- The field assignments of `updateWorkingHours` (part_000 lines
101-103): `if (update.openingTime)` and `if (update.closingTime)` are
JavaScript truthiness tests, so a present empty string is skipped;
`isActive` is compared against `undefined`, so a present `false` is
applied. -/
def applyWorkingHoursUpdate (h : WorkingHoursEntry) (upd : WorkingHoursUpdate) :
    WorkingHoursEntry :=
  let h1 := match upd.openingTime with
    | some t => if t = "" then h else { h with openingTime := t }
    | none => h
  let h2 := match upd.closingTime with
    | some t => if t = "" then h1 else { h1 with closingTime := t }
    | none => h1
  match upd.isActive with
  | some b => { h2 with isActive := b }
  | none => h2

/-- `hours.findIndex((h) => h.day.toLowerCase() ===
update.day.toLowerCase())` followed by in-place mutation of that entry
(part_000 lines 95-105): the first case-insensitively matching entry is
updated; `none` models `index === -1`. -/
def updateHoursList (upd : WorkingHoursUpdate) :
    List WorkingHoursEntry → Option (List WorkingHoursEntry)
  | [] => none
  | h :: hs =>
    if strToLower h.day = strToLower upd.day then
      some (applyWorkingHoursUpdate h upd :: hs)
    else
      (updateHoursList upd hs).map (fun r => h :: r)

/-- `VendorService.updateWorkingHours` (part_000 lines 86-109): resolve
the vendor (`NotFoundException` otherwise), locate the entry for the
requested day case-insensitively (`BadRequestException` naming the day
otherwise), apply the present fields to that entry, save the vendor and
return the full updated hours collection. Errors leave the store
untouched (`vendor.save()` only runs on the success path). -/
def updateWorkingHours (store : List (String × Vendor)) (vendorId : String)
    (upd : WorkingHoursUpdate) :
    Except ServiceError (List WorkingHoursEntry) × List (String × Vendor) :=
  match lookupVendor store vendorId with
  | none => (.error (.notFound "Vendor not found"), store)
  | some vendor =>
    match updateHoursList upd vendor.workingHours with
    | none => (.error (.badRequest ("Invalid day: " ++ upd.day)), store)
    | some newHours =>
      let newVendor := { vendor with workingHours := newHours }
      (.ok newVendor.workingHours, saveVendor store vendorId newVendor)

/-! ## Helper lemmas -/

theorem parsedPage_pos (page : Option Int) : 1 ≤ parsedPage page :=
  le_max_left 1 _

theorem parsedLimit_pos (limit : Option Int) : 1 ≤ parsedLimit limit :=
  le_min (le_max_left 1 _) (by norm_num)

theorem parsedLimit_le_100 (limit : Option Int) : parsedLimit limit ≤ 100 :=
  min_le_right _ _

theorem mem_insertByCreatedAtDesc (o a : Order) (l : List Order) :
    a ∈ insertByCreatedAtDesc o l ↔ a = o ∨ a ∈ l := by
  induction l with
  | nil => simp [insertByCreatedAtDesc]
  | cons x xs ih =>
    by_cases h : o.createdAt ≥ x.createdAt
    · simp [insertByCreatedAtDesc, h]
    · simp [insertByCreatedAtDesc, h, ih]
      tauto

theorem mem_sortByCreatedAtDesc (a : Order) (l : List Order) :
    a ∈ sortByCreatedAtDesc l ↔ a ∈ l := by
  induction l with
  | nil => simp [sortByCreatedAtDesc]
  | cons x xs ih =>
    simp [sortByCreatedAtDesc, mem_insertByCreatedAtDesc, ih]

theorem ceil_natCast_div (t L : ℕ) (hL : 0 < L) :
    ⌈(t : ℚ) / (L : ℚ)⌉ = (((t + L - 1) / L : ℕ) : ℤ) := by
  have hL0 : (0 : ℚ) < (L : ℚ) := by exact_mod_cast hL
  cases t with
  | zero =>
    have h0 : (0 + L - 1) / L = 0 := Nat.div_eq_of_lt (by omega)
    rw [h0]
    norm_num
  | succ s =>
    have harg : s + 1 + L - 1 = s + L := by omega
    rw [harg]
    generalize hq : (s + L) / L = q
    have hdm : L * q + (s + L) % L = s + L := hq ▸ Nat.div_add_mod (s + L) L
    generalize hr' : (s + L) % L = r at hdm
    have hrlt : r < L := hr' ▸ Nat.mod_lt _ hL
    have hdmQ : (L : ℚ) * (q : ℚ) + (r : ℚ) = (s : ℚ) + (L : ℚ) := by
      exact_mod_cast hdm
    have hrQ : (r : ℚ) < (L : ℚ) := by exact_mod_cast hrlt
    rw [Int.ceil_eq_iff]
    constructor
    · rw [lt_div_iff₀ hL0]
      push_cast
      nlinarith [hdmQ, hrQ]
    · rw [div_le_iff₀ hL0]
      push_cast
      have hr1 : (r : ℚ) + 1 ≤ (L : ℚ) := by exact_mod_cast hrlt
      nlinarith [hdmQ, hr1]

theorem query_totalPages (db : List Order) (vendorId : String)
    (page limit : Option Int) (sd ed : Option Int) (search : Option String) :
    (vendorOrdersQuery db vendorId page limit sd ed search).totalPages =
      (((vendorOrdersQuery db vendorId page limit sd ed search).total +
        (parsedLimit limit).toNat - 1) / (parsedLimit limit).toNat : ℕ) := by
  have h0 : (0 : ℤ) ≤ parsedLimit limit := le_trans zero_le_one (parsedLimit_pos limit)
  have hpos : 0 < (parsedLimit limit).toNat := by
    have := parsedLimit_pos limit
    omega
  have hcast : (parsedLimit limit : ℚ) = (((parsedLimit limit).toNat : ℕ) : ℚ) := by
    exact_mod_cast (congrArg (fun z : ℤ => (z : ℚ)) (Int.toNat_of_nonneg h0)).symm
  show Int.ceil _ = _
  rw [hcast, ceil_natCast_div _ _ hpos]
  rfl

theorem query_orders_matches (db : List Order) (vendorId : String)
    (page limit : Option Int) (sd ed : Option Int) (search : Option String) :
    ∀ o ∈ (vendorOrdersQuery db vendorId page limit sd ed search).orders,
      orderMatches vendorId sd ed search o = true := by
  intro o ho
  have h1 : o ∈ sortByCreatedAtDesc (db.filter (orderMatches vendorId sd ed search)) :=
    List.drop_subset _ _ (List.take_subset _ _ ho)
  have h2 : o ∈ db.filter (orderMatches vendorId sd ed search) :=
    (mem_sortByCreatedAtDesc o _).1 h1
  exact (List.mem_filter.1 h2).2

theorem query_orders_length_le (db : List Order) (vendorId : String)
    (page limit : Option Int) (sd ed : Option Int) (search : Option String) :
    ((vendorOrdersQuery db vendorId page limit sd ed search).orders.length : Int) ≤
      (vendorOrdersQuery db vendorId page limit sd ed search).limit := by
  have h1 : (vendorOrdersQuery db vendorId page limit sd ed search).orders.length ≤
      (parsedLimit limit).toNat := by
    show (List.take _ _).length ≤ _
    rw [List.length_take]
    exact Nat.min_le_left _ _
  have h0 : (0 : ℤ) ≤ parsedLimit limit := le_trans zero_le_one (parsedLimit_pos limit)
  calc ((vendorOrdersQuery db vendorId page limit sd ed search).orders.length : Int)
      ≤ ((parsedLimit limit).toNat : Int) := by exact_mod_cast h1
    _ = parsedLimit limit := Int.toNat_of_nonneg h0

theorem orderMatches_deleted (vendorId : String) (sd ed : Option Int)
    (search : Option String) (o : Order) (h : o.isDeleted = true) :
    orderMatches vendorId sd ed search o = false := by
  simp [orderMatches, h]

/-- The item-validation loop stops at the first offending item: a valid
initial segment is consumed, and the error raised at the first invalid
item is determined by that item alone, whatever follows it. -/
theorem computeTotal_first_error (menuItems : String → Option MenuItem)
    (pre : List OrderItem) (bad : OrderItem) (rest : List OrderItem)
    (hpre : ∀ it ∈ pre, itemOk menuItems it = true)
    (hbad : itemOk menuItems bad = false) (acc : Int) :
    computeTotal menuItems acc (pre ++ bad :: rest) =
      (match menuItems bad.menuItemId with
       | none => .error (.notFound ("Menu item " ++ bad.menuItemId ++ " not found"))
       | some mi => .error (.badRequest ("Menu item " ++ mi.name ++ " is not available"))) := by
  induction pre generalizing acc with
  | nil =>
    cases hmi : menuItems bad.menuItemId with
    | none => simp [computeTotal, hmi]
    | some mi =>
      have hen : mi.isEnabled = false := by simpa [itemOk, hmi] using hbad
      simp [computeTotal, hmi, hen]
  | cons it pres ih =>
    have hit : itemOk menuItems it = true := hpre it (List.mem_cons_self it pres)
    have hrest : ∀ x ∈ pres, itemOk menuItems x = true :=
      fun x hx => hpre x (List.mem_cons_of_mem it hx)
    cases hmi : menuItems it.menuItemId with
    | none => simp [itemOk, hmi] at hit
    | some menuItem =>
      have hen : menuItem.isEnabled = true := by simpa [itemOk, hmi] using hit
      simp only [List.cons_append, computeTotal, hmi, hen, Bool.not_true,
        Bool.false_eq_true, if_false]
      exact ih hrest _

theorem startsWith_iff (n h : List Char) :
    startsWith n h = true ↔ ∃ r, h = n ++ r := by
  induction n generalizing h with
  | nil =>
    simp [startsWith]
  | cons a as ih =>
    cases h with
    | nil => simp [startsWith]
    | cons b bs =>
      show (a == b && startsWith as bs) = true ↔ _
      rw [Bool.and_eq_true, beq_iff_eq, ih]
      constructor
      · rintro ⟨hab, r, hr⟩
        exact ⟨r, by simp [hab, hr]⟩
      · rintro ⟨r, hr⟩
        rw [List.cons_append, List.cons.injEq] at hr
        exact ⟨hr.1.symm, r, hr.2⟩

theorem containsSub_iff (n h : List Char) :
    containsSub n h = true ↔ ∃ l r, h = l ++ n ++ r := by
  induction h with
  | nil =>
    rw [show containsSub n [] = startsWith n [] from rfl, startsWith_iff]
    constructor
    · rintro ⟨r, hr⟩
      exact ⟨[], r, by simpa using hr⟩
    · rintro ⟨l, r, hr⟩
      refine ⟨r, ?_⟩
      cases l with
      | nil => simpa using hr
      | cons x xs => simp at hr
  | cons c cs ih =>
    rw [show containsSub n (c :: cs) =
      (startsWith n (c :: cs) || containsSub n cs) from rfl]
    rw [Bool.or_eq_true, startsWith_iff, ih]
    constructor
    · rintro (⟨r, hr⟩ | ⟨l, r, hr⟩)
      · exact ⟨[], r, by simpa using hr⟩
      · exact ⟨c :: l, r, by simp [hr]⟩
    · rintro ⟨l, r, hr⟩
      cases l with
      | nil => exact Or.inl ⟨r, by simpa using hr⟩
      | cons x xs =>
        rw [List.cons_append, List.cons_append, List.cons.injEq] at hr
        exact Or.inr ⟨xs, r, by simp [hr.2]⟩

theorem updateHoursList_eq_none (upd : WorkingHoursUpdate)
    (hs : List WorkingHoursEntry)
    (h : ∀ x ∈ hs, strToLower x.day ≠ strToLower upd.day) :
    updateHoursList upd hs = none := by
  induction hs with
  | nil => rfl
  | cons x xs ih =>
    have hx : strToLower x.day ≠ strToLower upd.day := h x (List.mem_cons_self x xs)
    have hxs : ∀ y ∈ xs, strToLower y.day ≠ strToLower upd.day :=
      fun y hy => h y (List.mem_cons_of_mem x hy)
    simp [updateHoursList, hx, ih hxs]

theorem updateHoursList_split (upd : WorkingHoursUpdate)
    (pre : List WorkingHoursEntry) (h : WorkingHoursEntry)
    (suf : List WorkingHoursEntry)
    (hpre : ∀ x ∈ pre, strToLower x.day ≠ strToLower upd.day)
    (hh : strToLower h.day = strToLower upd.day) :
    updateHoursList upd (pre ++ h :: suf) =
      some (pre ++ applyWorkingHoursUpdate h upd :: suf) := by
  induction pre with
  | nil => simp [updateHoursList, hh]
  | cons x xs ih =>
    have hx : strToLower x.day ≠ strToLower upd.day := hpre x (List.mem_cons_self x xs)
    have hxs : ∀ y ∈ xs, strToLower y.day ≠ strToLower upd.day :=
      fun y hy => hpre y (List.mem_cons_of_mem x hy)
    simp [updateHoursList, hx, ih hxs]

theorem lookup_saveVendor (store : List (String × Vendor)) (id : String)
    (w v : Vendor) (h : lookupVendor store id = some w) :
    lookupVendor (saveVendor store id v) id = some v := by
  induction store with
  | nil => simp [lookupVendor] at h
  | cons p rest ih =>
    by_cases hp : p.1 == id
    · simp [lookupVendor, saveVendor, List.find?, hp]
    · have h' : lookupVendor rest id = some w := by
        simpa [lookupVendor, List.find?, hp] using h
      have := ih h'
      simpa [lookupVendor, saveVendor, List.find?, hp] using this

/-! ## Claim theorems: order creation -/

/-- C1: for every createOrder call in which the customer and vendor
resolve, the vendor's `isStoreOpen` is true, and every submitted item
resolves to an enabled menu item, the persisted order's `totalAmount`
equals the exact sum over the submitted items of
`menuItem.price * item.quantity` (prices as read at order time), and
its status is `pending`. -/
theorem create_totalAmount_pending
    (customers : String → Option Customer) (vendors : String → Option Vendor)
    (menuItems : String → Option MenuItem) (userId : String)
    (dto : CreateOrderDto) (genId : String) (now : Int) (db : List Order)
    (c : Customer) (hc : customers userId = some c)
    (v : Vendor) (hv : vendors dto.vendorId = some v)
    (hopen : v.isStoreOpen = true)
    (hitems : ∀ it ∈ dto.items, itemOk menuItems it = true) :
    ∃ o : Order,
      create customers vendors menuItems userId dto genId now db =
        (.ok o, db ++ [o]) ∧
      o.totalAmount = specTotal menuItems dto.items ∧
      o.status = OrderStatus.pending := by
  have htot := computeTotal_ok menuItems dto.items hitems 0
  refine ⟨{ orderId := "ST-" ++ genId, customerId := userId,
            vendorId := dto.vendorId, customerName := c.fullName,
            phoneNumber := dto.phoneNumber, items := dto.items,
            totalAmount := specTotal menuItems dto.items,
            status := OrderStatus.pending, isDeleted := false,
            createdAt := now }, ?_, rfl, rfl⟩
  simp [create, hc, hv, hopen, htot]

/-- C1 witness: the spec's worked example (item A costs 500, quantity 2;
item B costs 300, quantity 1). -/
theorem create_totalAmount_pending_witness :
    (∃ o : Order,
      create (fun _ => some ⟨"Ada"⟩) (fun _ => some ⟨true, []⟩)
        (fun id => if id = "A" then some ⟨"ItemA", 500, true⟩
          else if id = "B" then some ⟨"ItemB", 300, true⟩ else none)
        "u1" ⟨"v1", "080", [⟨"A", 2⟩, ⟨"B", 1⟩]⟩ "XXXXXXXXXXXX" 0 [] =
        (.ok o, [] ++ [o]) ∧
      o.totalAmount = specTotal
        (fun id => if id = "A" then some ⟨"ItemA", 500, true⟩
          else if id = "B" then some ⟨"ItemB", 300, true⟩ else none)
        [⟨"A", 2⟩, ⟨"B", 1⟩] ∧
      o.status = OrderStatus.pending) ∧
    specTotal
      (fun id => if id = "A" then some ⟨"ItemA", 500, true⟩
        else if id = "B" then some ⟨"ItemB", 300, true⟩ else none)
      [⟨"A", 2⟩, ⟨"B", 1⟩] = 1300 :=
  ⟨create_totalAmount_pending _ _ _ _ _ _ _ _ ⟨"Ada"⟩ rfl ⟨true, []⟩ rfl rfl
    (by decide), by decide⟩

/-- C3: with the customer resolved, an unresolved vendor id fails with
NotFound, and a resolved vendor whose `isStoreOpen` is false fails with
"store closed" before any item is validated: the items of the request are
arbitrary here, so a closed-store order is rejected with this error even
when items are invalid or malformed, and no item error is ever reported
in either case. -/
theorem create_vendor_gate
    (customers : String → Option Customer) (vendors : String → Option Vendor)
    (menuItems : String → Option MenuItem) (userId : String)
    (dto : CreateOrderDto) (genId : String) (now : Int) (db : List Order)
    (c : Customer) (hc : customers userId = some c) :
    (vendors dto.vendorId = none →
      create customers vendors menuItems userId dto genId now db =
        (.error (.notFound "Vendor not found"), db)) ∧
    (∀ v : Vendor, vendors dto.vendorId = some v → v.isStoreOpen = false →
      create customers vendors menuItems userId dto genId now db =
        (.error (.badRequest "Vendor store is currently closed"), db)) := by
  constructor
  · intro h
    simp [create, hc, h]
  · intro v hv hcl
    simp [create, hc, hv, hcl]

/-- C3 witness: a closed store with an unresolvable item in the request
still reports "store closed". -/
theorem create_vendor_gate_witness :
    create (fun _ => some ⟨"Ada"⟩) (fun _ => some ⟨false, []⟩) (fun _ => none)
        "u1" ⟨"v1", "080", [⟨"bogus", 1⟩]⟩ "XXXXXXXXXXXX" 0 [] =
      (.error (.badRequest "Vendor store is currently closed"), []) :=
  (create_vendor_gate _ _ _ _ _ _ _ _ ⟨"Ada"⟩ rfl).2 ⟨false, []⟩ rfl rfl

/-- C4: once the vendor checks pass, items are validated in submission
order and the first offending item wins: an unresolved id yields NotFound
naming that id, a disabled item yields InvalidState naming its display
name, and the items after the first offender (`rest`, arbitrary here)
never influence the reported error. -/
theorem create_first_offending_item
    (customers : String → Option Customer) (vendors : String → Option Vendor)
    (menuItems : String → Option MenuItem) (userId : String)
    (dto : CreateOrderDto) (genId : String) (now : Int) (db : List Order)
    (c : Customer) (hc : customers userId = some c)
    (v : Vendor) (hv : vendors dto.vendorId = some v)
    (hopen : v.isStoreOpen = true)
    (pre : List OrderItem) (bad : OrderItem) (rest : List OrderItem)
    (hsplit : dto.items = pre ++ bad :: rest)
    (hpre : ∀ it ∈ pre, itemOk menuItems it = true) :
    (menuItems bad.menuItemId = none →
      create customers vendors menuItems userId dto genId now db =
        (.error (.notFound ("Menu item " ++ bad.menuItemId ++ " not found")), db)) ∧
    (∀ mi : MenuItem, menuItems bad.menuItemId = some mi → mi.isEnabled = false →
      create customers vendors menuItems userId dto genId now db =
        (.error (.badRequest ("Menu item " ++ mi.name ++ " is not available")), db)) := by
  constructor
  · intro hnone
    have hbad : itemOk menuItems bad = false := by simp [itemOk, hnone]
    have htot := computeTotal_first_error menuItems pre bad rest hpre hbad 0
    simp only [hnone] at htot
    simp [create, hc, hv, hopen, hsplit, htot]
  · intro mi hmi hdis
    have hbad : itemOk menuItems bad = false := by simp [itemOk, hmi, hdis]
    have htot := computeTotal_first_error menuItems pre bad rest hpre hbad 0
    simp only [hmi] at htot
    simp [create, hc, hv, hopen, hsplit, htot]

/-- C4 witness: the second item is disabled and the third does not even
resolve; the disabled item's display name is the reported error. -/
theorem create_first_offending_item_witness :
    create (fun _ => some ⟨"Ada"⟩) (fun _ => some ⟨true, []⟩)
        (fun id => if id = "A" then some ⟨"ItemA", 500, true⟩
          else if id = "B" then some ⟨"ItemB", 300, false⟩ else none)
        "u1" ⟨"v1", "080", [⟨"A", 1⟩, ⟨"B", 2⟩, ⟨"C", 1⟩]⟩ "XXXXXXXXXXXX" 0 [] =
      (.error (.badRequest "Menu item ItemB is not available"), []) :=
  (create_first_offending_item _ _ _ _ _ _ _ _ ⟨"Ada"⟩ rfl ⟨true, []⟩ rfl rfl
    [⟨"A", 1⟩] ⟨"B", 2⟩ [⟨"C", 1⟩] rfl (by decide)).2 ⟨"ItemB", 300, false⟩ rfl rfl

/-- C5: createOrder is atomic with respect to the order store: a failing
call leaves the store unchanged, and a successful call appends exactly
the one returned record. -/
theorem create_atomic
    (customers : String → Option Customer) (vendors : String → Option Vendor)
    (menuItems : String → Option MenuItem) (userId : String)
    (dto : CreateOrderDto) (genId : String) (now : Int) (db : List Order) :
    (∀ e : ServiceError,
      (create customers vendors menuItems userId dto genId now db).1 = .error e →
      (create customers vendors menuItems userId dto genId now db).2 = db) ∧
    (∀ o : Order,
      (create customers vendors menuItems userId dto genId now db).1 = .ok o →
      (create customers vendors menuItems userId dto genId now db).2 = db ++ [o] ∧
      (create customers vendors menuItems userId dto genId now db).2.length =
        db.length + 1) := by
  unfold create
  cases customers userId with
  | none => simp
  | some c =>
    cases vendors dto.vendorId with
    | none => simp
    | some v =>
      by_cases hop : v.isStoreOpen = true
      · simp only [hop, Bool.not_true, Bool.false_eq_true, if_false]
        cases computeTotal menuItems 0 dto.items with
        | error e => simp
        | ok t => simp
      · have hop' : v.isStoreOpen = false := by
          cases h : v.isStoreOpen
          · rfl
          · exact absurd h hop
        simp [hop']

/-- C5 witness: a call that fails the vendor check leaves a one-record
store unchanged. -/
theorem create_atomic_witness :
    (create (fun _ => some ⟨"Ada"⟩) (fun _ => none) (fun _ => none) "u1"
        ⟨"v1", "080", []⟩ "XXXXXXXXXXXX" 0
        [⟨"ST-old", "c", "v", "n", "p", [], 5, .pending, false, 1⟩]).2 =
      [⟨"ST-old", "c", "v", "n", "p", [], 5, .pending, false, 1⟩] :=
  (create_atomic _ _ _ _ _ _ _ _).1 (.notFound "Vendor not found") rfl

/-- C10: createOrder does not re-validate that the item list is
non-empty: with customer and vendor resolved and the store open, an empty
items list passes the validation loop vacuously and an order is persisted
with `totalAmount = 0` and status `pending`. -/
theorem create_empty_items
    (customers : String → Option Customer) (vendors : String → Option Vendor)
    (menuItems : String → Option MenuItem) (userId : String)
    (dto : CreateOrderDto) (genId : String) (now : Int) (db : List Order)
    (c : Customer) (hc : customers userId = some c)
    (v : Vendor) (hv : vendors dto.vendorId = some v)
    (hopen : v.isStoreOpen = true) (hempty : dto.items = []) :
    ∃ o : Order,
      create customers vendors menuItems userId dto genId now db =
        (.ok o, db ++ [o]) ∧
      o.totalAmount = 0 ∧ o.status = OrderStatus.pending := by
  refine ⟨{ orderId := "ST-" ++ genId, customerId := userId,
            vendorId := dto.vendorId, customerName := c.fullName,
            phoneNumber := dto.phoneNumber, items := dto.items,
            totalAmount := 0, status := OrderStatus.pending,
            isDeleted := false, createdAt := now }, ?_, rfl, rfl⟩
  simp [create, hc, hv, hopen, hempty, computeTotal]

/-- C10 witness: an empty item list against an open store persists a
zero-total pending order. -/
theorem create_empty_items_witness :
    ∃ o : Order,
      create (fun _ => some ⟨"Ada"⟩) (fun _ => some ⟨true, []⟩) (fun _ => none)
        "u1" ⟨"v1", "080", []⟩ "XXXXXXXXXXXX" 0 [] = (.ok o, [] ++ [o]) ∧
      o.totalAmount = 0 ∧ o.status = OrderStatus.pending :=
  create_empty_items _ _ _ _ _ _ _ _ ⟨"Ada"⟩ rfl ⟨true, []⟩ rfl rfl rfl

/-! ## Claim theorems: vendor order queries -/

/-- C2 counterexample: with two matching orders in the store, requesting
`limit = 0` does not behave like `limit = 1` — the JavaScript
`Number(limit) || 10` treats `0` as falsy and substitutes the default
`10`, so the whole page (2 records, response `limit = 10`) is returned
instead of a single record. -/
theorem vendor_queries_pagination_counterexample :
    findAllVendorOrders
        [⟨"ST-A", "c1", "v", "Ada", "080", [], 0, .pending, false, 5⟩,
         ⟨"ST-B", "c2", "v", "Bob", "081", [], 0, .pending, false, 3⟩]
        "v" (some 1) (some 0) none none none ≠
      findAllVendorOrders
        [⟨"ST-A", "c1", "v", "Ada", "080", [], 0, .pending, false, 5⟩,
         ⟨"ST-B", "c2", "v", "Bob", "081", [], 0, .pending, false, 3⟩]
        "v" (some 1) (some 1) none none none := by
  decide

/-- C2 (amended): for both vendor order query modes, `page` is coerced
to at least 1 (`page = 0` and `page = -5` behave identically to
`page = 1`); a nonzero `limit` is clamped to `[1, 100]` (`limit = 1000`
behaves identically to `limit = 100`), but `limit = 0` is falsy in
JavaScript and falls back to the default, behaving identically to
`limit = 10` rather than `limit = 1`; the effective limit always lies in
`[1, 100]`; and the returned page of results is offset by
`(page - 1) * limit` and contains at most `limit` records. -/
theorem vendor_queries_pagination
    (db : List Order) (vendorId : String) (page limit : Option Int)
    (sd ed : Option Int) (search : Option String) (tS tE : Int) :
    (findAllVendorOrders db vendorId (some 0) limit sd ed search =
      findAllVendorOrders db vendorId (some 1) limit sd ed search) ∧
    (findAllVendorOrders db vendorId (some (-5)) limit sd ed search =
      findAllVendorOrders db vendorId (some 1) limit sd ed search) ∧
    (findAllVendorOrders db vendorId page (some 1000) sd ed search =
      findAllVendorOrders db vendorId page (some 100) sd ed search) ∧
    (findAllVendorOrders db vendorId page (some 0) sd ed search =
      findAllVendorOrders db vendorId page (some 10) sd ed search) ∧
    (getTodaysVendorOrders db vendorId (some 0) limit search tS tE =
      getTodaysVendorOrders db vendorId (some 1) limit search tS tE) ∧
    (getTodaysVendorOrders db vendorId (some (-5)) limit search tS tE =
      getTodaysVendorOrders db vendorId (some 1) limit search tS tE) ∧
    (getTodaysVendorOrders db vendorId page (some 1000) search tS tE =
      getTodaysVendorOrders db vendorId page (some 100) search tS tE) ∧
    (getTodaysVendorOrders db vendorId page (some 0) search tS tE =
      getTodaysVendorOrders db vendorId page (some 10) search tS tE) ∧
    1 ≤ (findAllVendorOrders db vendorId page limit sd ed search).page ∧
    1 ≤ (findAllVendorOrders db vendorId page limit sd ed search).limit ∧
    (findAllVendorOrders db vendorId page limit sd ed search).limit ≤ 100 ∧
    ((findAllVendorOrders db vendorId page limit sd ed search).orders =
      ((sortByCreatedAtDesc (db.filter (orderMatches vendorId sd ed search))).drop
        (((findAllVendorOrders db vendorId page limit sd ed search).page - 1) *
          (findAllVendorOrders db vendorId page limit sd ed search).limit).toNat).take
        (findAllVendorOrders db vendorId page limit sd ed search).limit.toNat) ∧
    ((findAllVendorOrders db vendorId page limit sd ed search).orders.length : Int) ≤
      (findAllVendorOrders db vendorId page limit sd ed search).limit ∧
    1 ≤ (getTodaysVendorOrders db vendorId page limit search tS tE).page ∧
    1 ≤ (getTodaysVendorOrders db vendorId page limit search tS tE).limit ∧
    (getTodaysVendorOrders db vendorId page limit search tS tE).limit ≤ 100 ∧
    ((getTodaysVendorOrders db vendorId page limit search tS tE).orders =
      ((sortByCreatedAtDesc (db.filter
          (orderMatches vendorId (some tS) (some tE) search))).drop
        (((getTodaysVendorOrders db vendorId page limit search tS tE).page - 1) *
          (getTodaysVendorOrders db vendorId page limit search tS tE).limit).toNat).take
        (getTodaysVendorOrders db vendorId page limit search tS tE).limit.toNat) ∧
    ((getTodaysVendorOrders db vendorId page limit search tS tE).orders.length : Int) ≤
      (getTodaysVendorOrders db vendorId page limit search tS tE).limit := by
  refine ⟨rfl, rfl, rfl, rfl, rfl, rfl, rfl, rfl,
    parsedPage_pos page, parsedLimit_pos limit, parsedLimit_le_100 limit, rfl,
    query_orders_length_le db vendorId page limit sd ed search,
    parsedPage_pos page, parsedLimit_pos limit, parsedLimit_le_100 limit, rfl,
    query_orders_length_le db vendorId page limit (some tS) (some tE) search⟩

/-- C6: for both vendor order query modes, `total` is the count of all
orders matching the same filter predicate as the returned page,
independent of `page` and `limit`; every returned order matches that
predicate and is not soft-deleted; soft-deleted orders never match the
predicate (so they are neither listed nor counted); and `totalPages` is
the ceiling of `total / limit`. -/
theorem vendor_queries_total_consistent
    (db : List Order) (vendorId : String) (page limit page' limit' : Option Int)
    (sd ed : Option Int) (search : Option String) (tS tE : Int) :
    ((findAllVendorOrders db vendorId page limit sd ed search).total =
      (db.filter (orderMatches vendorId sd ed search)).length) ∧
    ((findAllVendorOrders db vendorId page' limit' sd ed search).total =
      (findAllVendorOrders db vendorId page limit sd ed search).total) ∧
    (∀ o ∈ (findAllVendorOrders db vendorId page limit sd ed search).orders,
      orderMatches vendorId sd ed search o = true ∧ o.isDeleted = false) ∧
    (∀ o : Order, o.isDeleted = true →
      orderMatches vendorId sd ed search o = false) ∧
    ((findAllVendorOrders db vendorId page limit sd ed search).totalPages =
      (((findAllVendorOrders db vendorId page limit sd ed search).total +
        (findAllVendorOrders db vendorId page limit sd ed search).limit.toNat - 1) /
        (findAllVendorOrders db vendorId page limit sd ed search).limit.toNat : ℕ)) ∧
    ((getTodaysVendorOrders db vendorId page limit search tS tE).total =
      (db.filter (orderMatches vendorId (some tS) (some tE) search)).length) ∧
    ((getTodaysVendorOrders db vendorId page' limit' search tS tE).total =
      (getTodaysVendorOrders db vendorId page limit search tS tE).total) ∧
    (∀ o ∈ (getTodaysVendorOrders db vendorId page limit search tS tE).orders,
      orderMatches vendorId (some tS) (some tE) search o = true ∧
        o.isDeleted = false) ∧
    (∀ o : Order, o.isDeleted = true →
      orderMatches vendorId (some tS) (some tE) search o = false) ∧
    ((getTodaysVendorOrders db vendorId page limit search tS tE).totalPages =
      (((getTodaysVendorOrders db vendorId page limit search tS tE).total +
        (getTodaysVendorOrders db vendorId page limit search tS tE).limit.toNat - 1) /
        (getTodaysVendorOrders db vendorId page limit search tS tE).limit.toNat : ℕ)) := by
  refine ⟨rfl, rfl, ?_, ?_, query_totalPages db vendorId page limit sd ed search,
    rfl, rfl, ?_, ?_,
    query_totalPages db vendorId page limit (some tS) (some tE) search⟩
  · intro o ho
    have hm := query_orders_matches db vendorId page limit sd ed search o ho
    cases hdel : o.isDeleted with
    | false => exact ⟨hm, rfl⟩
    | true =>
      rw [orderMatches_deleted vendorId sd ed search o hdel] at hm
      exact absurd hm (by simp)
  · intro o ho
    exact orderMatches_deleted vendorId sd ed search o ho
  · intro o ho
    have hm := query_orders_matches db vendorId page limit (some tS) (some tE) search o ho
    cases hdel : o.isDeleted with
    | false => exact ⟨hm, rfl⟩
    | true =>
      rw [orderMatches_deleted vendorId (some tS) (some tE) search o hdel] at hm
      exact absurd hm (by simp)
  · intro o ho
    exact orderMatches_deleted vendorId (some tS) (some tE) search o ho

/-- C6 witness: a soft-deleted order never matches the filter predicate,
here at a concrete deleted order. -/
theorem vendor_queries_total_consistent_witness :
    orderMatches "v" none none none
        ⟨"ST-A", "c1", "v", "Ada", "080", [], 0, .pending, true, 5⟩ = false :=
  (vendor_queries_total_consistent [] "v" none none none none none none none
    0 0).2.2.2.1 ⟨"ST-A", "c1", "v", "Ada", "080", [], 0, .pending, true, 5⟩ rfl

/-- C7: for both query modes, a search term that is empty after trimming
(or absent) applies no search filter; a term that is non-empty after
trimming restricts the filter exactly by a case-insensitive substring
match of the trimmed term against `customerName`, `phoneNumber`, or
`orderId` (logical OR); and the match relation is genuine substring
containment on the lowercased strings. -/
theorem search_filter_semantics
    (db : List Order) (vendorId : String) (page limit : Option Int)
    (sd ed : Option Int) (tS tE : Int) :
    (∀ s : String, strTrim s = "" →
      findAllVendorOrders db vendorId page limit sd ed (some s) =
        findAllVendorOrders db vendorId page limit sd ed none ∧
      getTodaysVendorOrders db vendorId page limit (some s) tS tE =
        getTodaysVendorOrders db vendorId page limit none tS tE) ∧
    (∀ s : String, strTrim s ≠ "" → ∀ o : Order,
      orderMatches vendorId sd ed (some s) o =
        (orderMatches vendorId sd ed none o &&
          (ciContains (strTrim s) o.customerName ||
            ciContains (strTrim s) o.phoneNumber ||
            ciContains (strTrim s) o.orderId))) ∧
    (∀ term field : String,
      ciContains term field = true ↔
        ∃ l r, (strToLower field).data = l ++ (strToLower term).data ++ r) := by
  refine ⟨?_, ?_, ?_⟩
  · intro s hs
    have hpred : ∀ sd' ed' : Option Int,
        orderMatches vendorId sd' ed' (some s) =
          orderMatches vendorId sd' ed' none := by
      intro sd' ed'
      funext o
      simp [orderMatches, matchesSearch, hs]
    constructor
    · show vendorOrdersQuery db vendorId page limit sd ed (some s) =
        vendorOrdersQuery db vendorId page limit sd ed none
      unfold vendorOrdersQuery
      rw [hpred sd ed]
    · show vendorOrdersQuery db vendorId page limit (some tS) (some tE) (some s) =
        vendorOrdersQuery db vendorId page limit (some tS) (some tE) none
      unfold vendorOrdersQuery
      rw [hpred (some tS) (some tE)]
  · intro s hs o
    simp [orderMatches, matchesSearch, hs, Bool.and_assoc]
  · intro term field
    exact containsSub_iff _ _

/-- C7 witness: an all-whitespace search term behaves like an absent one,
and the modelled match relation is substring containment, shown at a
concrete term and field. -/
theorem search_filter_semantics_witness :
    (findAllVendorOrders [] "v" none none none none (some "   ") =
      findAllVendorOrders [] "v" none none none none none) ∧
    ciContains "AB" "xaby" = true :=
  ⟨((search_filter_semantics [] "v" none none none none 0 0).1 "   " (by decide)).1,
   ((search_filter_semantics [] "v" none none none none 0 0).2.2 "AB" "xaby").mpr
     ⟨['x'], ['y'], by decide⟩⟩

/-! ## Claim theorems: vendor operating state -/

/-- C8 counterexample: `openingTime` is present in the request but is the
empty string; the claim says a present field is overwritten, yet the
JavaScript truthiness test `if (update.openingTime)` skips it, so the
prior value "09:00" survives. -/
theorem updateWorkingHours_counterexample :
    (updateWorkingHours
        [("v1", ⟨true, [⟨"Monday", "09:00", "17:00", true⟩]⟩)] "v1"
        ⟨"monday", some "", none, none⟩).1 =
      Except.ok [⟨"Monday", "09:00", "17:00", true⟩] ∧
    (updateWorkingHours
        [("v1", ⟨true, [⟨"Monday", "09:00", "17:00", true⟩]⟩)] "v1"
        ⟨"monday", some "", none, none⟩).1 ≠
      Except.ok [⟨"Monday", "", "17:00", true⟩] := by
  have hpos : (updateWorkingHours
      [("v1", ⟨true, [⟨"Monday", "09:00", "17:00", true⟩]⟩)] "v1"
      ⟨"monday", some "", none, none⟩).1 =
      Except.ok [⟨"Monday", "09:00", "17:00", true⟩] := rfl
  refine ⟨hpos, ?_⟩
  rw [hpos]
  intro h
  simp at h

/-- C8 (amended): on an existing vendor, the entry for the requested day
is located by case-insensitive day-name match; if no entry matches, the
call fails with InvalidInput and the store (hence every working-hours
entry) is unchanged; if an entry matches, only that entry is rewritten —
a present non-empty `openingTime`/`closingTime` overwrites the prior
value, a present empty string is skipped (JavaScript truthiness), a
present `isActive` (including `false`) is applied, absent fields and all
other days' entries keep their prior values — and the full updated hours
collection is returned and persisted. -/
theorem updateWorkingHours_behavior
    (store : List (String × Vendor)) (vendorId : String)
    (upd : WorkingHoursUpdate) (v : Vendor)
    (hv : lookupVendor store vendorId = some v) :
    ((∀ h ∈ v.workingHours, strToLower h.day ≠ strToLower upd.day) →
      updateWorkingHours store vendorId upd =
        (.error (.badRequest ("Invalid day: " ++ upd.day)), store)) ∧
    (∀ (pre : List WorkingHoursEntry) (h : WorkingHoursEntry)
        (suf : List WorkingHoursEntry),
      v.workingHours = pre ++ h :: suf →
      (∀ x ∈ pre, strToLower x.day ≠ strToLower upd.day) →
      strToLower h.day = strToLower upd.day →
      updateWorkingHours store vendorId upd =
        (.ok (pre ++ applyWorkingHoursUpdate h upd :: suf),
          saveVendor store vendorId
            { v with workingHours := pre ++ applyWorkingHoursUpdate h upd :: suf })) ∧
    (∀ h : WorkingHoursEntry,
      applyWorkingHoursUpdate h upd =
        { day := h.day
          openingTime := match upd.openingTime with
            | some t => if t = "" then h.openingTime else t
            | none => h.openingTime
          closingTime := match upd.closingTime with
            | some t => if t = "" then h.closingTime else t
            | none => h.closingTime
          isActive := match upd.isActive with
            | some b => b
            | none => h.isActive }) := by
  refine ⟨?_, ?_, ?_⟩
  · intro hnone
    simp [updateWorkingHours, hv, updateHoursList_eq_none upd v.workingHours hnone]
  · intro pre h suf hsplit hpre hh
    simp [updateWorkingHours, hv, hsplit,
      updateHoursList_split upd pre h suf hpre hh]
  · intro h
    rcases upd with ⟨d, _ | t1, _ | t2, _ | b⟩ <;>
      simp [applyWorkingHoursUpdate] <;> split_ifs <;> simp_all

/-- C8 witness: updating Tuesday by the uppercased day name rewrites only
the Tuesday entry (new opening time, `isActive := false`, closing time
kept), leaves Monday untouched, and returns and persists the full
collection. -/
theorem updateWorkingHours_behavior_witness :
    updateWorkingHours
        [("v1", ⟨true, [⟨"Monday", "09:00", "17:00", true⟩,
                        ⟨"Tuesday", "09:00", "17:00", true⟩]⟩)] "v1"
        ⟨"TUESDAY", some "10:00", none, some false⟩ =
      (.ok [⟨"Monday", "09:00", "17:00", true⟩,
            ⟨"Tuesday", "10:00", "17:00", false⟩],
        [("v1", ⟨true, [⟨"Monday", "09:00", "17:00", true⟩,
                        ⟨"Tuesday", "10:00", "17:00", false⟩]⟩)]) :=
  (updateWorkingHours_behavior
    [("v1", ⟨true, [⟨"Monday", "09:00", "17:00", true⟩,
                    ⟨"Tuesday", "09:00", "17:00", true⟩]⟩)] "v1"
    ⟨"TUESDAY", some "10:00", none, some false⟩
    ⟨true, [⟨"Monday", "09:00", "17:00", true⟩,
            ⟨"Tuesday", "09:00", "17:00", true⟩]⟩ rfl).2.1
    [⟨"Monday", "09:00", "17:00", true⟩]
    ⟨"Tuesday", "09:00", "17:00", true⟩ [] rfl (by decide) (by decide)

/-- C9: `openStore` and `closeStore` are idempotent flips of
`isStoreOpen`: on a resolving vendor id they set the flag to true
(respectively false) and succeed whatever the current value — in
particular opening twice succeeds and leaves the flag true both times —
and on a non-resolving id both fail with NotFound. -/
theorem openStore_closeStore_idempotent
    (store : List (String × Vendor)) (vendorId : String) :
    (lookupVendor store vendorId = none →
      openStore store vendorId = (.error (.notFound "Vendor not found"), store) ∧
      closeStore store vendorId = (.error (.notFound "Vendor not found"), store)) ∧
    (∀ v : Vendor, lookupVendor store vendorId = some v →
      openStore store vendorId =
        (.ok { v with isStoreOpen := true },
          saveVendor store vendorId { v with isStoreOpen := true }) ∧
      closeStore store vendorId =
        (.ok { v with isStoreOpen := false },
          saveVendor store vendorId { v with isStoreOpen := false }) ∧
      openStore (openStore store vendorId).2 vendorId =
        (.ok { v with isStoreOpen := true },
          saveVendor (openStore store vendorId).2 vendorId
            { v with isStoreOpen := true }) ∧
      ({ v with isStoreOpen := true } : Vendor).isStoreOpen = true ∧
      ({ v with isStoreOpen := false } : Vendor).isStoreOpen = false) := by
  constructor
  · intro h
    constructor <;> simp [openStore, closeStore, h]
  · intro v hv
    have hv' : lookupVendor
        (saveVendor store vendorId { v with isStoreOpen := true }) vendorId =
        some { v with isStoreOpen := true } :=
      lookup_saveVendor store vendorId v _ hv
    refine ⟨?_, ?_, ?_, rfl, rfl⟩
    · simp [openStore, hv]
    · simp [closeStore, hv]
    · have h2 : (openStore store vendorId).2 =
          saveVendor store vendorId { v with isStoreOpen := true } := by
        simp [openStore, hv]
      rw [h2]
      simp [openStore, hv']

/-- C9 witness: opening a closed store, opening an already-open store
(the result of the first call), and opening with an unresolvable id. -/
theorem openStore_closeStore_idempotent_witness :
    openStore [("v1", (⟨false, []⟩ : Vendor))] "v1" =
      (.ok ⟨true, []⟩, [("v1", ⟨true, []⟩)]) ∧
    openStore [("v1", (⟨true, []⟩ : Vendor))] "v1" =
      (.ok ⟨true, []⟩, [("v1", ⟨true, []⟩)]) ∧
    openStore [] "v1" = (.error (.notFound "Vendor not found"), []) :=
  ⟨((openStore_closeStore_idempotent [("v1", (⟨false, []⟩ : Vendor))] "v1").2
      ⟨false, []⟩ rfl).1,
   ((openStore_closeStore_idempotent [("v1", (⟨true, []⟩ : Vendor))] "v1").2
      ⟨true, []⟩ rfl).1,
   ((openStore_closeStore_idempotent [] "v1").1 rfl).1⟩

end SatisfyTech
